import Mathlib

/-!
Shallow embedding of the recording/transcription lifecycle controller of
linux-whisperer, translated from `src/whisperkey/main.py` (class
`LinuxWhisperer`, the latest iteration of the core; `src/main.py` is the
earlier global-state prototype of the same logic).

Modelling conventions:
- A raw audio chunk (the bytes returned by one `stream.read(CHUNK)`) is a
  `List Nat`; `b''.join(frames)` is `List.join`.
- Each method becomes a state transformer `WhState → WhState × List Eff`;
  the `Eff` list records, in program order, the externally visible actions
  (notifications, console prints, stream open/close, WAV write, thread
  spawn, pid-file operations, process exit).
- The capture loop of `_record_audio` takes the stream read results as a
  function `Nat → Option (List Nat)` over read indices: `some d` means
  `stream.read` returned bytes `d`, `none` means it raised an exception.
- `stop_recording`'s bounded `join(timeout=1.0)` is modelled by a Boolean
  parameter saying whether the capture thread acknowledged within the
  timeout; the code ignores the join outcome, and the model makes that
  explicit.  This models the *external* callers (keyboard thread, signal
  handler on the main thread), for which the join is legal.  The one caller
  running on the capture thread itself — the tail of `_record_audio` — hits
  Python's "cannot join current thread" `RuntimeError` instead; that is
  modelled inside `record_audio`, whose tail dies at the join.
- Exception texts interpolated into messages are abstracted to the fixed
  part of the message.
-/

namespace WhisperKey

/-- Audio configuration constants from the class body of `LinuxWhisperer`. -/
def RATE : Nat := 44100

/-- Frames per buffer for each read. -/
def CHUNK : Nat := 1024

/-- Default recording time limit in seconds. -/
def RECORD_SECONDS : Nat := 60

/-- Number of loop iterations of `_record_audio`:
`int(self.RATE / self.CHUNK * self.RECORD_SECONDS)`.  The Python float
arithmetic is exact here (44100/1024 has a finite binary expansion), so the
truncated value equals the Nat floor division. -/
def chunksToRecord : Nat := RATE * RECORD_SECONDS / CHUNK

/-- Externally visible actions of the controller, in program order. -/
inductive Eff where
  | notify (title body icon : String)
  | consolePrint (msg : String)
  | openStream
  | stopStream
  | closeStream
  | terminateAudio
  | saveWav (data : List Nat)
  | spawnTranscribe (data : List Nat)
  | startCaptureThread
  | createPid (pid : Nat)
  | removePid
  | exitProc (code : Nat)
  | uncaughtException (msg : String)
  deriving DecidableEq, Repr

/-- Mutable attributes of a `LinuxWhisperer` object (plus the pid-file
presence, which is filesystem state the object manipulates).
`audioSet`/`streamSet` model `self.audio`/`self.stream` being a (truthy)
object rather than `None`; `audioLive`/`streamOpen` model the underlying
resource not yet having been terminated/closed. -/
structure WhState where
  is_recording : Bool
  frames : List (List Nat)
  audioSet : Bool
  audioLive : Bool
  streamSet : Bool
  streamOpen : Bool
  threadAlive : Bool
  recording_complete : Bool
  pidFileExists : Bool
  deriving DecidableEq, Repr

/-- Object state right after `__init__` (pid-file presence is external input). -/
def initState (pidThere : Bool) : WhState :=
  { is_recording := false, frames := [], audioSet := false, audioLive := false,
    streamSet := false, streamOpen := false, threadAlive := false,
    recording_complete := false, pidFileExists := pidThere }

/-- Translation of `LinuxWhisperer.save_recording`: returns the written file
content (`b''.join(self.frames)`) in place of the filename, or `none` when
there are no frames. -/
def save_recording (s : WhState) : Option (List Nat) × List Eff :=
  if s.frames = [] then
    (none, [Eff.consolePrint "No audio data to save"])
  else
    (some s.frames.flatten,
     [Eff.consolePrint "Saving to file", Eff.saveWav s.frames.flatten])

/-- Translation of `LinuxWhisperer.stop_recording`.  `joinAck` is whether
`recording_thread.join(timeout=1.0)` saw the thread finish in time; the
source discards the join result, so everything after it is independent of
`joinAck`.  The per-field conditionals mirror the source's `if self.stream:`
and `if self.audio:` guards; `save_recording` reads only `frames`, which the
preceding statements leave untouched. -/
def stop_recording (joinAck : Bool) (s : WhState) : WhState × List Eff :=
  if s.is_recording = false then
    (s, [Eff.consolePrint "Not currently recording!"])
  else
    let s' : WhState :=
      { s with is_recording := false,
               threadAlive := s.threadAlive && !joinAck,
               streamOpen := if s.streamSet = true then false else s.streamOpen,
               audioLive := if s.audioSet = true then false else s.audioLive }
    (s',
     (if s.streamSet = true then [Eff.stopStream, Eff.closeStream] else [])
      ++ (if s.audioSet = true then [Eff.terminateAudio] else [])
      ++ (save_recording s').2
      ++ [Eff.consolePrint "Recording stopped. Processing transcription..."]
      ++ (match (save_recording s').1 with
          | some d => [Eff.spawnTranscribe d]
          | none => []))

/-- Translation of `LinuxWhisperer.start_recording` (the thread body
`_record_audio` is modelled separately; `startCaptureThread` marks its
launch). -/
def start_recording (s : WhState) : WhState × List Eff :=
  if s.is_recording = true then
    (s, [Eff.consolePrint "Already recording!"])
  else
    ({ s with frames := [], audioSet := true, audioLive := true,
              streamSet := true, streamOpen := true, is_recording := true,
              threadAlive := true },
     [Eff.openStream, Eff.startCaptureThread,
      Eff.notify "Recording Started" "Press Alt+G to stop recording"
        "dialog-information",
      Eff.consolePrint "Recording started. Press Alt+G to stop."])

/-- Translation of `LinuxWhisperer.toggle_recording`. -/
def toggle_recording (joinAck : Bool) (s : WhState) : WhState × List Eff :=
  if s.is_recording = true then stop_recording joinAck s
  else start_recording s

/-- The `for _ in range(chunks_to_record)` loop body of `_record_audio`:
`reads i` is the outcome of the i-th `stream.read(self.CHUNK)` (`none` =
exception).  Fuel counts remaining iterations; `i` is the next read index. -/
def recordLoopFrom (reads : Nat → Option (List Nat)) :
    Nat → Nat → WhState → WhState × List Eff
  | _, 0, s => (s, [])
  | i, n + 1, s =>
    if s.is_recording = false then (s, [])
    else
      match reads i with
      | some d =>
          recordLoopFrom reads (i + 1) n { s with frames := s.frames ++ [d] }
      | none => (s, [Eff.consolePrint "Error recording audio"])

/-- Translation of `LinuxWhisperer._record_audio`: the capture loop followed
by the tail branch that fires whenever `is_recording` is still set when the
loop exits (the source comments it as the time-limit case, but it is reached
on a read error too).  The tail's `self.stop_recording()` runs on the
capture thread itself: it passes the not-recording guard and sets
`is_recording = False`, but then `self.recording_thread.join(timeout=1.0)`
is a join of the current thread — which is alive, so the `if
self.recording_thread and self.recording_thread.is_alive():` guard admits
it — and CPython raises `RuntimeError: cannot join current thread`.  The
exception is uncaught, so the capture thread dies there: the stream is not
closed, nothing is saved, no transcription is spawned, and the time-limit
notification is never shown.  Only if the thread were somehow not alive
(unreachable when this code runs on that very thread) would the join be
skipped and `stop_recording` complete, followed by the notification. -/
def record_audio (reads : Nat → Option (List Nat)) (joinAck : Bool)
    (s : WhState) : WhState × List Eff :=
  let (s1, effs1) := recordLoopFrom reads 0 chunksToRecord s
  if s1.is_recording = true then
    if s1.threadAlive = true then
      ({ s1 with is_recording := false, threadAlive := false },
       effs1 ++ [Eff.uncaughtException "cannot join current thread"])
    else
      let (s2, effs2) := stop_recording joinAck s1
      (s2, effs1 ++ effs2
            ++ [Eff.notify "Recording Stopped"
                  "Time limit of 60 seconds reached" "dialog-information"])
  else (s1, effs1)

/-- Translation of `LinuxWhisperer._remove_pid_file`. -/
def remove_pid_file (s : WhState) : WhState × List Eff :=
  if s.pidFileExists = true then
    ({ s with pidFileExists := false }, [Eff.removePid])
  else (s, [])

/-- Translation of `LinuxWhisperer._signal_handler` (SIGINT/SIGTERM): stop
the recording if any, mark completion, remove the pid file, `sys.exit(0)`. -/
def signal_handler (joinAck : Bool) (s : WhState) : WhState × List Eff :=
  let (s1, effs1) :=
    if s.is_recording = true then stop_recording joinAck s else (s, [])
  let s2 : WhState := { s1 with recording_complete := true }
  let (s3, effs2) := remove_pid_file s2
  (s3, effs1 ++ effs2 ++ [Eff.exitProc 0])

/-- Translation of `LinuxWhisperer.transcribe_audio`, parameterised by the
outcomes of the two fallible collaborator calls: `result` is what the
transcription service returned (`none` = the call, or opening the file,
raised), and `clipOk` is whether `pyperclip.copy` succeeded.  Returns the
transcription (or `None`) and the emitted effects. -/
def transcribe_audio (result : Option String) (clipOk : Bool) :
    Option String × List Eff :=
  match result with
  | some text =>
      (some text,
       [Eff.consolePrint text]
        ++ (if clipOk = true then
              [Eff.consolePrint "Transcription copied to clipboard!",
               Eff.notify "Recording Completed"
                 "The transcription has been copied to your clipboard"
                 "dialog-information"]
            else
              [Eff.consolePrint "Failed to copy to clipboard",
               Eff.notify "Error" "Failed to copy to clipboard"
                 "dialog-error"]))
  | none =>
      (none,
       [Eff.consolePrint "Transcription error",
        Eff.notify "Transcription Error" "Failed to transcribe audio"
          "dialog-error"])

/-- Environment visible to the Process Singleton Guard at startup: the pid
recorded in an existing `recorder.pid` (if any) and the process table, as
probed by `is_process_running` (liveness, and the two name tests the source
performs on `process.name()`). -/
structure StartupEnv where
  markerPid : Option Nat
  live : Nat → Bool
  nameMatchesArgv0 : Nat → Bool
  nameHasPython : Nat → Bool

/-- Translation of `LinuxWhisperer.is_process_running`: a dead/inaccessible
pid gives `False`; otherwise the process must be running and its name either
equal `basename(sys.argv[0])` or contain "python". -/
def is_process_running (env : StartupEnv) (pid : Nat) : Bool :=
  env.live pid && (env.nameMatchesArgv0 pid || env.nameHasPython pid)

/-- Translation of the startup portion of `LinuxWhisperer.run` (before the
keep-alive sleep loop): unconditionally create the pid file, set up the
keyboard listener (success is the `keyboardOk` input), notify, and report
whether the daemon proceeded to its active loop.  The source never consults
the environment: `env` is a parameter only so theorems can quantify over the
pre-existing marker and the process table. -/
def run_startup (env : StartupEnv) (selfPid : Nat) (keyboardOk : Bool)
    (s : WhState) : Bool × WhState × List Eff :=
  let s1 : WhState := { s with pidFileExists := true }
  if keyboardOk = false then
    (false, s1,
     [Eff.createPid selfPid,
      Eff.notify "Error" "Failed to set up keyboard listener" "dialog-error"])
  else
    (true, s1,
     [Eff.createPid selfPid,
      Eff.notify "WhisperKey Active" "Press Alt+G to start/stop recording"
        "dialog-information",
      Eff.consolePrint "WhisperKey is running in the background.",
      Eff.consolePrint "Press Alt+G to start/stop recording."])

/-- Iterated `toggle_recording`, most recent call last. -/
def toggleIter (joinAck : Bool) : Nat → WhState → WhState
  | 0, s => s
  | n + 1, s => toggleIter joinAck n (toggle_recording joinAck s).1

/-- Whether an effect is a desktop notification (`show_notification`). -/
def isNotify : Eff → Bool
  | Eff.notify _ _ _ => true
  | _ => false

/-- Read-results function with `K` successful chunk reads followed by a read
exception: read `i` yields chunk `c i` for `i < K` and raises at index `K`. -/
def mkReads (c : Nat → List Nat) (K : Nat) : Nat → Option (List Nat) :=
  fun i => if i < K then some (c i) else none

/-- Read-results function where every read succeeds (time-limit scenario). -/
def allReads (c : Nat → List Nat) : Nat → Option (List Nat) :=
  fun i => some (c i)

/-- A concrete mid-session Recording state, used by witness theorems. -/
def recWitnessState : WhState :=
  { is_recording := true, frames := [[1, 2]], audioSet := true,
    audioLive := true, streamSet := true, streamOpen := true,
    threadAlive := true, recording_complete := false, pidFileExists := true }

/-- The object state right after a successful `start_recording` from a fresh
instance: a Recording state with an empty frame buffer. -/
def errScenarioState : WhState := (start_recording (initState true)).1

/-- An Idle state left over from an earlier session: the frame buffer still
holds that session's audio (stop does not clear it; the next start must). -/
def staleBufferState : WhState :=
  { is_recording := false, frames := [[9, 9, 9]], audioSet := true,
    audioLive := false, streamSet := true, streamOpen := false,
    threadAlive := false, recording_complete := false, pidFileExists := true }

/-- A startup environment where `recorder.pid` already exists and records
pid 999 of a live python process (the refuse-policy conflict scenario). -/
def liveMarkerEnv : StartupEnv :=
  { markerPid := some 999, live := fun p => p == 999,
    nameMatchesArgv0 := fun _ => false, nameHasPython := fun p => p == 999 }

/-! Helper lemmas shared by the claim theorems. -/

theorem stop_recording_fst_false (j : Bool) (s : WhState) :
    (stop_recording j s).1.is_recording = false := by
  by_cases h : s.is_recording = false <;> simp [stop_recording, h]

theorem start_recording_fst_true (s : WhState) :
    (start_recording s).1.is_recording = true := by
  by_cases h : s.is_recording = true <;> simp [start_recording, h]

theorem toggle_flip (j : Bool) (s : WhState) :
    (toggle_recording j s).1.is_recording = !s.is_recording := by
  cases h : s.is_recording <;>
    simp [toggle_recording, h, stop_recording_fst_false, start_recording_fst_true]

theorem toggleIter_parity (j : Bool) :
    ∀ (n : Nat) (s : WhState),
      (toggleIter j n s).is_recording = (s.is_recording ^^ decide (n % 2 = 1))
  | 0, s => by simp [toggleIter]
  | n + 1, s => by
      have ih := toggleIter_parity j n (toggle_recording j s).1
      rw [toggleIter, ih, toggle_flip]
      rcases Nat.mod_two_eq_zero_or_one n with hp | hp
      · have h0 : ¬(n % 2 = 1) := by omega
        have h1 : (n + 1) % 2 = 1 := by omega
        simp [h0, h1]
      · have h1 : ¬((n + 1) % 2 = 1) := by omega
        simp [hp, h1]

theorem recordLoopFrom_err (c : Nat → List Nat) (K : Nat) :
    ∀ (m i n : Nat) (s : WhState), s.is_recording = true →
      i + m = K → m < n →
      recordLoopFrom (mkReads c K) i n s
        = ({ s with frames := s.frames ++ (List.range' i m).map c },
           [Eff.consolePrint "Error recording audio"])
  | 0, i, n, s, hrec, hiK, hmn => by
      obtain ⟨n', rfl⟩ : ∃ n', n = n' + 1 := ⟨n - 1, by omega⟩
      obtain ⟨r, fr, a1, a2, sb1, sb2, t1, rc, pe⟩ := s
      have hr : r = true := hrec
      have hi : i = K := by omega
      subst hr hi
      simp [recordLoopFrom, mkReads]
  | m + 1, i, n, s, hrec, hiK, hmn => by
      obtain ⟨n', rfl⟩ : ∃ n', n = n' + 1 := ⟨n - 1, by omega⟩
      obtain ⟨r, fr, a1, a2, sb1, sb2, t1, rc, pe⟩ := s
      have hr : r = true := hrec
      subst hr
      have hlt : i < K := by omega
      have ih := recordLoopFrom_err c K m (i + 1) n'
        ⟨true, fr ++ [c i], a1, a2, sb1, sb2, t1, rc, pe⟩ rfl (by omega)
        (by omega)
      simp only [recordLoopFrom, mkReads, hlt, if_pos, if_true]
      simp [ih, List.range'_succ]

theorem recordLoopFrom_ok (c : Nat → List Nat) :
    ∀ (n i : Nat) (s : WhState), s.is_recording = true →
      recordLoopFrom (allReads c) i n s
        = ({ s with frames := s.frames ++ (List.range' i n).map c }, [])
  | 0, i, s, hrec => by
      obtain ⟨r, fr, a1, a2, sb1, sb2, t1, rc, pe⟩ := s
      simp [recordLoopFrom]
  | n + 1, i, s, hrec => by
      obtain ⟨r, fr, a1, a2, sb1, sb2, t1, rc, pe⟩ := s
      have hr : r = true := hrec
      subst hr
      have ih := recordLoopFrom_ok c n (i + 1)
        ⟨true, fr ++ [c i], a1, a2, sb1, sb2, t1, rc, pe⟩ rfl
      simp [recordLoopFrom, allReads, ih, List.range'_succ]

theorem record_audio_err (c : Nat → List Nat) (K : Nat) (j : Bool)
    (s : WhState) (hrec : s.is_recording = true)
    (hta : s.threadAlive = true) (hK : K < chunksToRecord) :
    record_audio (mkReads c K) j s
      = ({ s with frames := s.frames ++ (List.range' 0 K).map c,
                  is_recording := false, threadAlive := false },
         [Eff.consolePrint "Error recording audio",
          Eff.uncaughtException "cannot join current thread"]) := by
  obtain ⟨r, fr, a1, a2, sb1, sb2, t1, rc, pe⟩ := s
  have hr : r = true := hrec
  have ht : t1 = true := hta
  subst hr ht
  have h := recordLoopFrom_err c K K 0 chunksToRecord
    ⟨true, fr, a1, a2, sb1, sb2, true, rc, pe⟩ rfl (by omega) hK
  simp [record_audio, h]

theorem record_audio_ok (c : Nat → List Nat) (j : Bool)
    (s : WhState) (hrec : s.is_recording = true)
    (hta : s.threadAlive = true) :
    record_audio (allReads c) j s
      = ({ s with
              frames := s.frames ++ (List.range' 0 chunksToRecord).map c,
              is_recording := false, threadAlive := false },
         [Eff.uncaughtException "cannot join current thread"]) := by
  obtain ⟨r, fr, a1, a2, sb1, sb2, t1, rc, pe⟩ := s
  have hr : r = true := hrec
  have ht : t1 = true := hta
  subst hr ht
  have h := recordLoopFrom_ok c chunksToRecord 0
    ⟨true, fr, a1, a2, sb1, sb2, true, rc, pe⟩ rfl
  simp [record_audio, h]

theorem stop_effs_no_notify (j : Bool) (s : WhState) :
    (stop_recording j s).2.filter isNotify = [] := by
  by_cases h : s.is_recording = false
  · simp [stop_recording, h, isNotify]
  · simp only [stop_recording, h, save_recording]
    split_ifs <;> simp [isNotify]

theorem stop_run_effects (j : Bool) (s : WhState)
    (hrec : s.is_recording = true) (hs : s.streamSet = true)
    (ha : s.audioSet = true) :
    (stop_recording j s).2
      = [Eff.stopStream, Eff.closeStream, Eff.terminateAudio]
        ++ (if s.frames = [] then
              [Eff.consolePrint "No audio data to save",
               Eff.consolePrint "Recording stopped. Processing transcription..."]
            else
              [Eff.consolePrint "Saving to file",
               Eff.saveWav s.frames.flatten,
               Eff.consolePrint "Recording stopped. Processing transcription...",
               Eff.spawnTranscribe s.frames.flatten]) := by
  by_cases hf : s.frames = [] <;>
    simp [stop_recording, hrec, hs, ha, save_recording, hf]

/-! Claim theorems. -/

/-- C2: from the initial Idle state, any finite sequence of `toggle()` calls
produces a strictly alternating Idle/Recording trace (after `n` toggles the
controller is Recording iff `n` is odd; each single toggle flips the state),
and a toggle from Idle is exactly a `start` while a toggle from Recording is
exactly a `stop`. -/
theorem C2_toggle_trace_alternates (j : Bool) (s : WhState)
    (h : s.is_recording = false) :
    (∀ n : Nat, (toggleIter j n s).is_recording = decide (n % 2 = 1))
    ∧ (∀ t : WhState, (toggle_recording j t).1.is_recording = !t.is_recording)
    ∧ (∀ t : WhState, t.is_recording = false →
         toggle_recording j t = start_recording t)
    ∧ (∀ t : WhState, t.is_recording = true →
         toggle_recording j t = stop_recording j t) := by
  refine ⟨fun n => ?_, toggle_flip j, fun t ht => ?_, fun t ht => ?_⟩
  · rw [toggleIter_parity, h]; simp
  · simp [toggle_recording, ht]
  · simp [toggle_recording, ht]

/-- C2 witness: three toggles from the freshly initialised state leave the
controller Recording. -/
theorem C2_toggle_trace_alternates_witness :
    (initState false).is_recording = false
    ∧ (toggleIter true 3 (initState false)).is_recording = decide (3 % 2 = 1) :=
  ⟨by decide, (C2_toggle_trace_alternates true (initState false) (by decide)).1 3⟩

/-- C4: after `stop()` in the Recording state, the stream is stopped and
closed and the audio resource terminated, for every value of the join
acknowledgement (including `joinAck = false`, the worker missing the
bounded join timeout). -/
theorem C4_stop_releases_resources (j : Bool) (s : WhState)
    (h : s.is_recording = true) (hs : s.streamSet = true)
    (ha : s.audioSet = true) :
    (stop_recording j s).1.streamOpen = false
    ∧ (stop_recording j s).1.audioLive = false
    ∧ Eff.stopStream ∈ (stop_recording j s).2
    ∧ Eff.closeStream ∈ (stop_recording j s).2
    ∧ Eff.terminateAudio ∈ (stop_recording j s).2 := by
  simp [stop_recording, h, hs, ha]

/-- C4 witness: a concrete Recording state, stopped with the capture worker
failing to acknowledge within the timeout. -/
theorem C4_stop_releases_resources_witness :
    (stop_recording false recWitnessState).1.streamOpen = false
    ∧ (stop_recording false recWitnessState).1.audioLive = false
    ∧ Eff.stopStream ∈ (stop_recording false recWitnessState).2
    ∧ Eff.closeStream ∈ (stop_recording false recWitnessState).2
    ∧ Eff.terminateAudio ∈ (stop_recording false recWitnessState).2 :=
  C4_stop_releases_resources false recWitnessState rfl rfl rfl

/-- C6: every transcription job emits exactly one terminal notification, and
it is the correct one: the completed notification on success with a working
clipboard, the distinct clipboard-failure notification on success with a
failed copy, and the transcription-error notification on failure. -/
theorem C6_one_terminal_notification (r : Option String) (clip : Bool) :
    (transcribe_audio r clip).2.filter isNotify =
      [match r, clip with
       | some _, true =>
           Eff.notify "Recording Completed"
             "The transcription has been copied to your clipboard"
             "dialog-information"
       | some _, false =>
           Eff.notify "Error" "Failed to copy to clipboard" "dialog-error"
       | none, _ =>
           Eff.notify "Transcription Error" "Failed to transcribe audio"
             "dialog-error"] := by
  cases r <;> cases clip <;> simp [transcribe_audio, isNotify]

/-- C9: `start()` while already Recording leaves the whole object state
unchanged (frames, stream, thread included) and performs no effect beyond a
console log; in particular no stream is opened and no capture thread
started. -/
theorem C9_start_while_recording_noop (s : WhState)
    (h : s.is_recording = true) :
    start_recording s = (s, [Eff.consolePrint "Already recording!"])
    ∧ Eff.openStream ∉ (start_recording s).2
    ∧ Eff.startCaptureThread ∉ (start_recording s).2 := by
  simp [start_recording, h]

/-- C9 witness: on a concrete Recording state. -/
theorem C9_start_while_recording_noop_witness :
    start_recording recWitnessState
      = (recWitnessState, [Eff.consolePrint "Already recording!"])
    ∧ Eff.openStream ∉ (start_recording recWitnessState).2
    ∧ Eff.startCaptureThread ∉ (start_recording recWitnessState).2 :=
  C9_start_while_recording_noop recWitnessState rfl

/-- C7 (code contradicts the claim): after a fatal read error at chunk K,
the frame buffer does hold exactly the first K chunks in read order, but
nothing is ever persisted: the capture thread crashes in `stop_recording`'s
self-join before `save_recording` runs, so for K = 2 no `saveWav` effect
occurs, and for K = 0 the "No audio data to save" no-op print never runs
either. -/
theorem C7_error_session_persists_nothing :
    ((record_audio (mkReads (fun i => [i]) 2) true errScenarioState).1.frames
        = [[0], [1]]
     ∧ ∀ d, Eff.saveWav d
         ∉ (record_audio (mkReads (fun i => [i]) 2) true errScenarioState).2)
    ∧ ((∀ d, Eff.saveWav d
         ∉ (record_audio (mkReads (fun i => [i]) 0) true errScenarioState).2)
       ∧ Eff.consolePrint "No audio data to save"
           ∉ (record_audio (mkReads (fun i => [i]) 0) true
                errScenarioState).2) := by
  rw [record_audio_err (fun i => [i]) 2 true errScenarioState rfl rfl
      (by decide),
    record_audio_err (fun i => [i]) 0 true errScenarioState rfl rfl
      (by decide)]
  refine ⟨⟨by decide, ?_⟩, ?_, by decide⟩ <;> intro d <;> simp

/-- C10: a `start()` that actually begins a session (from Idle) resets the
frame buffer to empty, so the WAV persisted at the end of that session
holds exactly the chunks read during the session, independent of whatever
the buffer held before.  Persisting happens only on the manual-stop ending
(the error/time-limit tail crashes before saving), so the session ending
modelled here is an external `stop()` arriving after `m` completed chunk
reads: the loop has appended `m` session chunks when the stop runs, and
every WAV that stop writes is exactly their concatenation. -/
theorem C10_start_resets_buffer (s : WhState) (j : Bool)
    (c : Nat → List Nat) (m : Nat) (h : s.is_recording = false)
    (hm : m ≤ chunksToRecord) :
    (start_recording s).1.frames = []
    ∧ ∀ d, Eff.saveWav d
          ∈ (stop_recording j
               (recordLoopFrom (allReads c) 0 m (start_recording s).1).1).2 →
        d = ((List.range m).map c).flatten := by
  obtain ⟨r, fr, a1, a2, sb1, sb2, t1, rc, pe⟩ := s
  have hr : r = false := h
  subst hr
  have h2 : (start_recording ⟨false, fr, a1, a2, sb1, sb2, t1, rc, pe⟩).1
      = ⟨true, [], true, true, true, true, true, rc, pe⟩ := by
    simp [start_recording]
  constructor
  · rw [h2]
  · rw [h2]
    have hrr : List.range' 0 m = List.range m := (List.range_eq_range' m).symm
    have hloop := recordLoopFrom_ok c m 0
      ⟨true, [], true, true, true, true, true, rc, pe⟩ rfl
    rw [hloop]
    rw [stop_run_effects j _ rfl rfl rfl]
    by_cases h0 : m = 0
    · subst h0
      simp
    · have hne : List.map c (List.range' 0 m) ≠ [] := by
        rw [hrr]
        simp [List.range_eq_nil, h0]
      simp [hne, hrr, h0]

/-- C10 witness: starting from an Idle state whose stale buffer still holds
a chunk, then stopping after one read, the session save only ever contains
the new session's single chunk. -/
theorem C10_start_resets_buffer_witness :
    (start_recording staleBufferState).1.frames = []
    ∧ ∀ d, Eff.saveWav d
          ∈ (stop_recording true
               (recordLoopFrom (allReads (fun i => [i + 10])) 0 1
                  (start_recording staleBufferState).1).1).2 →
        d = ((List.range 1).map (fun i => [i + 10])).flatten :=
  C10_start_resets_buffer staleBufferState true (fun i => [i + 10]) 1 rfl
    (by decide)

/-- C3 (code contradicts the claim): with one good chunk and then a fatal
read error, the session does not end gracefully: the capture thread's
self-call to `stop_recording` dies on the "cannot join current thread"
`RuntimeError` right after clearing the recording flag, so the full effect
trace is just the error log and the uncaught exception — the stream is left
open (resources not released) and no notification of any kind, in
particular no distinct device-error one, is emitted.  (No transcription is
spawned either, but only because of the crash.) -/
theorem C3_read_error_crashes_capture_thread :
    (record_audio (mkReads (fun _ => [7]) 1) true errScenarioState).2
      = [Eff.consolePrint "Error recording audio",
         Eff.uncaughtException "cannot join current thread"]
    ∧ (record_audio (mkReads (fun _ => [7]) 1) true
        errScenarioState).1.streamOpen = true
    ∧ (record_audio (mkReads (fun _ => [7]) 1) true
        errScenarioState).1.is_recording = false
    ∧ (record_audio (mkReads (fun _ => [7]) 1) true
        errScenarioState).2.filter isNotify = [] := by
  rw [record_audio_err (fun _ => [7]) 1 true errScenarioState rfl rfl
    (by decide)]
  refine ⟨rfl, rfl, rfl, by decide⟩

/-- C5 counterexample: a manual `stop()` from a Recording state emits no
desktop notification at all (the filtered notification list of its effects
is empty), refuting that a manual stop triggers one "recording stopped"
notification. -/
theorem C5_counterexample_manual_stop_no_notification :
    recWitnessState.is_recording = true
    ∧ (stop_recording true recWitnessState).2.filter isNotify = [] := by
  decide

/-- C5 as amended: no session ending emits a stop notification of either
kind.  A manual `stop()` emits none (only a console message), and a session
that runs to the configured time limit also emits none: the capture
thread's self-call to `stop_recording` raises "cannot join current thread"
before the time-limit `show_notification` call is reached.  In particular
the two stop notifications are never both emitted for one session. -/
theorem C5_amended_no_stop_notifications (j : Bool) (s t : WhState)
    (c : Nat → List Nat) (hrec : t.is_recording = true)
    (hta : t.threadAlive = true) :
    (stop_recording j s).2.filter isNotify = []
    ∧ (record_audio (allReads c) j t).2.filter isNotify = [] := by
  refine ⟨stop_effs_no_notify j s, ?_⟩
  rw [record_audio_ok c j t hrec hta]
  simp [isNotify]

/-- C5 witness: concrete manual-stop and time-limit sessions. -/
theorem C5_amended_no_stop_notifications_witness :
    (stop_recording true (initState false)).2.filter isNotify = []
    ∧ (record_audio (allReads (fun _ => [0])) true
        recWitnessState).2.filter isNotify = [] :=
  C5_amended_no_stop_notifications true (initState false) recWitnessState
    (fun _ => [0]) rfl rfl

/-- C8: the signal handler never starts a recording (no stream open, no
capture thread launch, in any state), finishes with `sys.exit(0)` as its
very last action — so the stop of an active recording and the pid-marker
removal complete before exit — and leaves the controller not recording. -/
theorem C8_signal_stops_and_exits (j : Bool) (s : WhState) :
    Eff.openStream ∉ (signal_handler j s).2
    ∧ Eff.startCaptureThread ∉ (signal_handler j s).2
    ∧ (signal_handler j s).2.getLast? = some (Eff.exitProc 0)
    ∧ (s.pidFileExists = true → Eff.removePid ∈ (signal_handler j s).2)
    ∧ (s.is_recording = true → s.streamSet = true →
        Eff.closeStream ∈ (signal_handler j s).2)
    ∧ (signal_handler j s).1.is_recording = false := by
  obtain ⟨r, fr, a1, a2, sb1, sb2, t1, rc, pe⟩ := s
  cases r <;> cases sb1 <;> cases a1 <;> cases pe <;>
    rcases fr with _ | ⟨f0, fr⟩ <;>
      simp [signal_handler, stop_recording, save_recording, remove_pid_file]

/-- C8 witness: signal arriving mid-recording with the pid file present and
the capture worker not acknowledging the join. -/
theorem C8_signal_stops_and_exits_witness :
    Eff.openStream ∉ (signal_handler false recWitnessState).2
    ∧ (signal_handler false recWitnessState).2.getLast?
        = some (Eff.exitProc 0)
    ∧ Eff.removePid ∈ (signal_handler false recWitnessState).2
    ∧ Eff.closeStream ∈ (signal_handler false recWitnessState).2 :=
  ⟨(C8_signal_stops_and_exits false recWitnessState).1,
   (C8_signal_stops_and_exits false recWitnessState).2.2.1,
   (C8_signal_stops_and_exits false recWitnessState).2.2.2.1 rfl,
   (C8_signal_stops_and_exits false recWitnessState).2.2.2.2.1 rfl rfl⟩

/-- C1 (code contradicts the claim): at startup with an existing marker
whose recorded pid 999 is live — and would be recognised as live by the
source's own `is_process_running` — the daemon does not fail: it proceeds
to its active loop, overwrites the marker with its own pid, and never
exits with a conflict; indeed the whole startup is independent of the
marker and the process table, so the singleton check is never performed. -/
theorem C1_startup_never_consults_singleton_guard :
    is_process_running liveMarkerEnv 999 = true
    ∧ (run_startup liveMarkerEnv 1234 true (initState true)).1 = true
    ∧ Eff.createPid 1234
        ∈ (run_startup liveMarkerEnv 1234 true (initState true)).2.2
    ∧ (∀ code : Nat,
        Eff.exitProc code
          ∉ (run_startup liveMarkerEnv 1234 true (initState true)).2.2)
    ∧ (∀ e : StartupEnv,
        run_startup e 1234 true (initState true)
          = run_startup liveMarkerEnv 1234 true (initState true)) := by
  refine ⟨rfl, rfl, by simp [run_startup], ?_, fun e => rfl⟩
  intro code
  simp [run_startup]

end WhisperKey
